import Mathlib

/-!
A shallow embedding of `libcloud/dns/base.py`: the `Zone` and `Record` value
objects and the abstract `DNSDriver` contract.

Modelling conventions:
* Python values in `id` position (None, int or str) are modelled by `PyVal`,
  with Python truthiness and `str()` conversion made explicit.
* Python exceptions are modelled by `Except PyError`; `NotImplementedError`
  and `AttributeError` are the two kinds raised by this file.
* A generator that yields finitely many items is modelled as a `List`
  (draining it with Python `list(...)` is then the identity on the items,
  in order).
* The `driver` back-reference stored on `Zone`/`Record` is an identity
  string; the operation table of a concrete driver (`DriverImpl`) is passed
  explicitly to the delegation methods, breaking the object-graph cycle of
  the Python original without changing which arguments each call forwards.
* Methods of the base `DNSDriver` class that only raise are embedded as
  functions returning the corresponding error.
-/

/-- The two Python exception kinds raised by the embedded code:
`NotImplementedError` with its message, and `AttributeError` with the
missing attribute name. -/
inductive PyError where
  | notImplemented (msg : String)
  | attributeError (attr : String)
deriving DecidableEq

/-- Result of a Python call that may raise. -/
abbrev Py (α : Type) := Except PyError α

/-- A Python value in an `id` position: `None`, an `int`, or a `str`. -/
inductive PyVal where
  | pyNone
  | pyInt (n : Int)
  | pyStr (s : String)
deriving DecidableEq

/-- Python truthiness of a `PyVal`: `None` is falsy, `0` is falsy, the
empty string is falsy, everything else is truthy. -/
def PyVal.truthy : PyVal → Bool
  | .pyNone => false
  | .pyInt n => n != 0
  | .pyStr s => s != ""

/-- Python `str()` applied to a `PyVal`. -/
def PyVal.toPyStr : PyVal → String
  | .pyNone => "None"
  | .pyInt n => toString n
  | .pyStr s => s

/-- Whether the value is a Python `str`. -/
def PyVal.isStr : PyVal → Bool
  | .pyStr _ => true
  | _ => false

/-- Embeds the expression `str(id) if id else None` used by both
`Zone.__init__` and `Record.__init__`. -/
def coerceId (id : PyVal) : PyVal :=
  if id.truthy then .pyStr id.toPyStr else .pyNone

/-- Embeds Python `string.upper()` (per character uppercasing). -/
def pyUpper (s : String) : String :=
  String.mk (s.data.map Char.toUpper)

/-- Modelled from the spec: the `RecordType` enumeration. It lives in
`libcloud/dns/types.py`, which is not under `src/`; the spec describes it
as a closed set of symbolic DNS record kinds (A, AAAA, MX, TXT, ...). -/
inductive RecordType where
  | A
  | AAAA
  | CNAME
  | MX
  | NS
  | PTR
  | SOA
  | SPF
  | SRV
  | TXT
deriving DecidableEq

/-- Modelled from the spec: the named members of the `RecordType`
enumeration, as attribute lookup sees them. -/
def RecordType.members : List (String × RecordType) :=
  [("A", .A), ("AAAA", .AAAA), ("CNAME", .CNAME), ("MX", .MX), ("NS", .NS),
   ("PTR", .PTR), ("SOA", .SOA), ("SPF", .SPF), ("SRV", .SRV), ("TXT", .TXT)]

/-- Embeds `getattr(RecordType, name)`: the member of that name when it is
defined, `Option.none` (an `AttributeError` at the call site) otherwise. -/
def RecordType.getattr (name : String) : Option RecordType :=
  (RecordType.members.find? (fun p => p.1 == name)).map Prod.snd

/-- A Python dict of provider-specific extra attributes. -/
abbrev Extra := List (String × String)

/-- Embeds the expression `extra or {}` used by both constructors: `None`
and the empty dict are falsy, so both yield the empty dict. -/
def orEmptyDict (extra : Option Extra) : Extra :=
  match extra with
  | Option.none => []
  | Option.some m => if m.isEmpty then [] else m

/-- The `Zone` value object (fields set by `Zone.__init__`). -/
structure Zone where
  id : PyVal
  domain : String
  type : String
  ttl : Option Int
  driver : String
  extra : Extra
deriving DecidableEq

/-- Embeds `Zone.__init__`: `id` is coerced by `str(id) if id else None`,
`ttl` by `ttl or None`, `extra` by `extra or {}`; `domain`, `type` and
`driver` are stored unchanged. -/
def Zone.init (id : PyVal) (domain : String) (type : String) (ttl : Option Int)
    (driver : String) (extra : Option Extra) : Zone :=
  ⟨coerceId id, domain, type,
   (match ttl with
    | Option.none => Option.none
    | Option.some t => if t = 0 then Option.none else Option.some t),
   driver, orEmptyDict extra⟩

/-- The `Record` value object (fields set by `Record.__init__`). -/
structure Record where
  id : PyVal
  name : String
  type : RecordType
  data : String
  zone : Zone
  driver : String
  extra : Extra
deriving DecidableEq

/-- Embeds `Record.__init__`: same `id` coercion and `extra or {}` rule as
`Zone.__init__`; the other fields are stored unchanged. -/
def Record.init (id : PyVal) (name : String) (type : RecordType) (data : String)
    (zone : Zone) (driver : String) (extra : Option Extra) : Record :=
  ⟨coerceId id, name, type, data, zone, driver, orEmptyDict extra⟩

namespace DNSDriver

/-- Embeds the base `DNSDriver.iterate_zones`, which only raises. -/
def iterate_zones : Py (List Zone) :=
  Except.error (.notImplemented "iterate_zones not implemented for this driver")

/-- Embeds the base `DNSDriver.iterate_records`, which only raises. -/
def iterate_records (zone : Zone) : Py (List Record) :=
  Except.error (.notImplemented "iterate_records not implemented for this driver")

/-- Embeds the base `DNSDriver.get_zone`, which only raises. -/
def get_zone (zone_id : String) : Py Zone :=
  Except.error (.notImplemented "get_zone not implemented for this driver")

/-- Embeds the base `DNSDriver.get_record`, which only raises. -/
def get_record (zone_id : String) (record_id : String) : Py Record :=
  Except.error (.notImplemented "get_record not implemented for this driver")

/-- Embeds the base `DNSDriver.create_zone`, which only raises. -/
def create_zone (domain : String) (type : String) (ttl : Option Int)
    (extra : Option Extra) : Py Zone :=
  Except.error (.notImplemented "create_zone not implemented for this driver")

/-- Embeds the base `DNSDriver.update_zone`, which only raises. `domain`
and `type` may be `None` at run time (that is what `Zone.update` passes for
unset fields), hence the `Option` types. -/
def update_zone (zone : Zone) (domain : Option String) (type : Option String)
    (ttl : Option Int) (extra : Option Extra) : Py Zone :=
  Except.error (.notImplemented "update_zone not implemented for this driver")

/-- Embeds the base `DNSDriver.create_record`, which only raises. -/
def create_record (name : String) (zone : Zone) (type : RecordType)
    (data : String) (extra : Option Extra) : Py Record :=
  Except.error (.notImplemented "create_record not implemented for this driver")

/-- Embeds the base `DNSDriver.update_record`, which only raises. The
replacement fields may be `None` (what `Record.update` passes for unset
fields), hence the `Option` types. -/
def update_record (record : Record) (name : Option String)
    (type : Option RecordType) (data : Option String) (extra : Option Extra) :
    Py Record :=
  Except.error (.notImplemented "update_record not implemented for this driver")

/-- Embeds the base `DNSDriver.delete_zone`, which only raises. -/
def delete_zone (zone : Zone) : Py Bool :=
  Except.error (.notImplemented "delete_zone not implemented for this driver")

/-- Embeds the base `DNSDriver.delete_record`, which only raises. -/
def delete_record (record : Record) : Py Bool :=
  Except.error (.notImplemented "delete_record not implemented for this driver")

/-- Embeds `DNSDriver._string_to_record_type`: uppercase the input, then
`getattr(RecordType, string)`; a missing member is an `AttributeError`. -/
def _string_to_record_type (string : String) : Py RecordType :=
  match RecordType.getattr (pyUpper string) with
  | Option.some record_type => Except.ok record_type
  | Option.none => Except.error (.attributeError (pyUpper string))

/-- Embeds `DNSDriver.list_record_types`:
`list(self.RECORD_TYPE_MAP.keys())`, with the class-level dict passed
explicitly as an association list. -/
def list_record_types (record_type_map : List (RecordType × String)) :
    List RecordType :=
  record_type_map.map Prod.fst

end DNSDriver

/-- The overridable operation surface of a concrete driver (a subclass of
`DNSDriver`): each field is one method a provider implementation overrides.
Only the operations the value objects delegate to are needed here. -/
structure DriverImpl where
  name : String
  iterate_records : Zone → Py (List Record)
  update_zone : Zone → Option String → Option String → Option Int →
    Option Extra → Py Zone
  create_record : String → Zone → RecordType → String → Option Extra →
    Py Record
  delete_zone : Zone → Py Bool
  update_record : Record → Option String → Option RecordType →
    Option String → Option Extra → Py Record
  delete_record : Record → Py Bool

/-- Embeds the inherited default `DNSDriver.list_records`:
`list(self.iterate_records(zone))` — dynamic dispatch reaches the
subclass's `iterate_records`, and draining the generator keeps the items in
order (or propagates the error it raises). -/
def DriverImpl.list_records (d : DriverImpl) (zone : Zone) :
    Py (List Record) :=
  match d.iterate_records zone with
  | Except.ok records => Except.ok records
  | Except.error e => Except.error e

/-- Embeds `Zone.list_records`: `self.driver.list_records(zone=self)`. The
owning driver's operation table is the explicit first argument. -/
def Zone.list_records (d : DriverImpl) (z : Zone) : Py (List Record) :=
  d.list_records z

/-- Embeds `Zone.create_record`: forwards `name`, `self` (as `zone`),
`type`, `data` and `extra` to the driver unchanged. -/
def Zone.create_record (d : DriverImpl) (z : Zone) (name : String)
    (type : RecordType) (data : String) (extra : Option Extra) : Py Record :=
  d.create_record name z type data extra

/-- Embeds `Zone.update`: forwards `self` (as `zone`) and the optional
replacement fields (`None` when unset) to `driver.update_zone`. -/
def Zone.update (d : DriverImpl) (z : Zone) (domain : Option String)
    (type : Option String) (ttl : Option Int) (extra : Option Extra) :
    Py Zone :=
  d.update_zone z domain type ttl extra

/-- Embeds `Zone.delete`: `self.driver.delete_zone(zone=self)`. -/
def Zone.delete (d : DriverImpl) (z : Zone) : Py Bool :=
  d.delete_zone z

/-- Embeds `Record.update`: forwards `self` (as `record`) and the optional
replacement fields to `driver.update_record`. -/
def Record.update (d : DriverImpl) (r : Record) (name : Option String)
    (type : Option RecordType) (data : Option String) (extra : Option Extra) :
    Py Record :=
  d.update_record r name type data extra

/-- Embeds `Record.delete`: `self.driver.delete_record(record=self)`. -/
def Record.delete (d : DriverImpl) (r : Record) : Py Bool :=
  d.delete_record r

/-- Modelled from the spec: a concrete driver's zone-update operation
(`src/` holds only the raising base method) — fields left unset/absent
retain their current value; returns the updated Zone. -/
def specUpdateZone (z : Zone) (domain : Option String) (type : Option String)
    (ttl : Option Int) (extra : Option Extra) : Py Zone :=
  Except.ok ⟨z.id, domain.getD z.domain, type.getD z.type,
    (match ttl with
     | Option.none => z.ttl
     | Option.some t => Option.some t),
    z.driver, extra.getD z.extra⟩

/-- A sample zone, as a concrete driver would construct it. -/
def zoneEx : Zone :=
  Zone.init (.pyInt 1) "example.com" "master" (Option.some 3600) "ex"
    Option.none

/-- A sample record belonging to `zoneEx`. -/
def recordEx : Record :=
  Record.init (.pyInt 7) "www" RecordType.A "1.2.3.4" zoneEx "ex" Option.none

/-- A sample concrete driver: its record iterator yields `recordEx`, its
zone update follows the spec's retention rule, and its record creation
builds the `Record` from the arguments it receives (as a provider driver
does from the provider response). -/
def exDriver : DriverImpl :=
  ⟨"ex",
   fun _ => Except.ok [recordEx],
   specUpdateZone,
   fun name z ty da ex => Except.ok (Record.init PyVal.pyNone name ty da z "ex" ex),
   fun _ => Except.ok true,
   fun r _ _ _ _ => Except.ok r,
   fun _ => Except.ok true⟩

/-- `Zone.list_records` at statement level: the first component is the
value of `self` after the method body runs — the body is a single `return`
expression with no attribute assignment. -/
def Zone.list_records_call (d : DriverImpl) (z : Zone) :
    Zone × Py (List Record) :=
  (z, Zone.list_records d z)

/-- `Zone.create_record` at statement level (see `Zone.list_records_call`). -/
def Zone.create_record_call (d : DriverImpl) (z : Zone) (name : String)
    (type : RecordType) (data : String) (extra : Option Extra) :
    Zone × Py Record :=
  (z, Zone.create_record d z name type data extra)

/-- `Zone.update` at statement level (see `Zone.list_records_call`). -/
def Zone.update_call (d : DriverImpl) (z : Zone) (domain : Option String)
    (type : Option String) (ttl : Option Int) (extra : Option Extra) :
    Zone × Py Zone :=
  (z, Zone.update d z domain type ttl extra)

/-- `Zone.delete` at statement level (see `Zone.list_records_call`). -/
def Zone.delete_call (d : DriverImpl) (z : Zone) : Zone × Py Bool :=
  (z, Zone.delete d z)

/-- `Record.update` at statement level (see `Zone.list_records_call`). -/
def Record.update_call (d : DriverImpl) (r : Record) (name : Option String)
    (type : Option RecordType) (data : Option String) (extra : Option Extra) :
    Record × Py Record :=
  (r, Record.update d r name type data extra)

/-- `Record.delete` at statement level (see `Zone.list_records_call`). -/
def Record.delete_call (d : DriverImpl) (r : Record) : Record × Py Bool :=
  (r, Record.delete d r)

/-- Helper: the coercion `str(id) if id else None` always yields a Python
str or None, never an int. -/
theorem coerceId_str_or_none (v : PyVal) :
    coerceId v = PyVal.pyNone ∨ (coerceId v).isStr = true := by
  unfold coerceId
  by_cases h : v.truthy
  · right
    simp [h, PyVal.isStr]
  · left
    simp [h]

/-- C1: every one of the ten CRUD operations on a bare `DNSDriver` base
instance raises the not-implemented error, for every argument value. -/
theorem c1_base_crud_raises_not_implemented :
    DNSDriver.iterate_zones = Except.error (PyError.notImplemented
      "iterate_zones not implemented for this driver")
    ∧ (∀ z : Zone, DNSDriver.iterate_records z = Except.error
        (PyError.notImplemented
          "iterate_records not implemented for this driver"))
    ∧ (∀ zid : String, DNSDriver.get_zone zid = Except.error
        (PyError.notImplemented "get_zone not implemented for this driver"))
    ∧ (∀ zid rid : String, DNSDriver.get_record zid rid = Except.error
        (PyError.notImplemented "get_record not implemented for this driver"))
    ∧ (∀ (dom ty : String) (ttl : Option Int) (ex : Option Extra),
        DNSDriver.create_zone dom ty ttl ex = Except.error
          (PyError.notImplemented
            "create_zone not implemented for this driver"))
    ∧ (∀ (z : Zone) (dom ty : Option String) (ttl : Option Int)
         (ex : Option Extra),
        DNSDriver.update_zone z dom ty ttl ex = Except.error
          (PyError.notImplemented
            "update_zone not implemented for this driver"))
    ∧ (∀ (n : String) (z : Zone) (ty : RecordType) (da : String)
         (ex : Option Extra),
        DNSDriver.create_record n z ty da ex = Except.error
          (PyError.notImplemented
            "create_record not implemented for this driver"))
    ∧ (∀ (r : Record) (n : Option String) (ty : Option RecordType)
         (da : Option String) (ex : Option Extra),
        DNSDriver.update_record r n ty da ex = Except.error
          (PyError.notImplemented
            "update_record not implemented for this driver"))
    ∧ (∀ z : Zone, DNSDriver.delete_zone z = Except.error
        (PyError.notImplemented
          "delete_zone not implemented for this driver"))
    ∧ (∀ r : Record, DNSDriver.delete_record r = Except.error
        (PyError.notImplemented
          "delete_record not implemented for this driver")) :=
  ⟨rfl, fun _ => rfl, fun _ => rfl, fun _ _ => rfl, fun _ _ _ _ => rfl,
   fun _ _ _ _ _ => rfl, fun _ _ _ _ _ => rfl, fun _ _ _ _ _ => rfl,
   fun _ => rfl, fun _ => rfl⟩

/-- C2: for every id input (None, int or str), a constructed Zone's or
Record's `id` attribute is a Python str or None, never an int; in
particular the numeric id 5 is coerced to the string "5". -/
theorem c2_id_string_or_absent :
    (∀ (v : PyVal) (dom ty : String) (ttl : Option Int) (drv : String)
       (ex : Option Extra),
       (Zone.init v dom ty ttl drv ex).id = PyVal.pyNone
       ∨ ((Zone.init v dom ty ttl drv ex).id).isStr = true)
    ∧ (∀ (v : PyVal) (n : String) (ty : RecordType) (da : String) (z : Zone)
        (drv : String) (ex : Option Extra),
        (Record.init v n ty da z drv ex).id = PyVal.pyNone
        ∨ ((Record.init v n ty da z drv ex).id).isStr = true)
    ∧ (Zone.init (.pyInt 5) "example.com" "master" Option.none "d"
        Option.none).id = PyVal.pyStr "5"
    ∧ (Record.init (.pyInt 5) "www" RecordType.A "1.2.3.4" zoneEx "d"
        Option.none).id = PyVal.pyStr "5" :=
  ⟨fun v _ _ _ _ _ => coerceId_str_or_none v,
   fun v _ _ _ _ _ _ => coerceId_str_or_none v,
   by decide, by decide⟩

/-- C3: a Zone constructed with `ttl` equal to 0 or None has an absent
(`None`) ttl; in the spec's scenario, `Zone(id=5, domain="example.com",
type="master", ttl=0, driver=d)` has `id == "5"` and `ttl is None`.
(Omitting `ttl` is a `TypeError` in Python — no Zone is constructed — so
the 0/None cases are the only constructible ones.) -/
theorem c3_zone_ttl_falsy_absent :
    (∀ (v : PyVal) (dom ty drv : String) (ex : Option Extra),
       (Zone.init v dom ty (Option.some 0) drv ex).ttl = Option.none)
    ∧ (∀ (v : PyVal) (dom ty drv : String) (ex : Option Extra),
       (Zone.init v dom ty Option.none drv ex).ttl = Option.none)
    ∧ (Zone.init (.pyInt 5) "example.com" "master" (Option.some 0) "d"
        Option.none).id = PyVal.pyStr "5"
    ∧ (Zone.init (.pyInt 5) "example.com" "master" (Option.some 0) "d"
        Option.none).ttl = Option.none :=
  ⟨fun _ _ _ _ _ => rfl, fun _ _ _ _ _ => rfl, by decide, rfl⟩

/-- C4: `_string_to_record_type` depends only on the uppercased input (so
every spelling of a recognized name resolves to the same member, e.g. "a"
and "A" both give `RecordType.A`), and for every string whose uppercasing
names no member of the enumeration it fails with an attribute error. -/
theorem c4_string_to_record_type_spec :
    (∀ s t : String, pyUpper s = pyUpper t →
       DNSDriver._string_to_record_type s
         = DNSDriver._string_to_record_type t)
    ∧ DNSDriver._string_to_record_type "a" = Except.ok RecordType.A
    ∧ DNSDriver._string_to_record_type "A" = Except.ok RecordType.A
    ∧ (∀ s : String, (∀ p ∈ RecordType.members, p.1 ≠ pyUpper s) →
       DNSDriver._string_to_record_type s
         = Except.error (PyError.attributeError (pyUpper s))) := by
  refine ⟨?_, rfl, rfl, ?_⟩
  · intro s t h
    unfold DNSDriver._string_to_record_type
    rw [h]
  · intro s h
    have hfind : RecordType.members.find? (fun p => p.1 == pyUpper s)
        = Option.none := by
      rw [List.find?_eq_none]
      intro p hp
      simpa using h p hp
    unfold DNSDriver._string_to_record_type RecordType.getattr
    rw [hfind]
    rfl

/-- Witness for C4 at concrete inputs: "mx" and "MX" resolve identically,
and "not_a_type" fails with an attribute error. -/
theorem c4_string_to_record_type_spec_witness :
    DNSDriver._string_to_record_type "mx"
      = DNSDriver._string_to_record_type "MX"
    ∧ DNSDriver._string_to_record_type "not_a_type"
      = Except.error (PyError.attributeError (pyUpper "not_a_type")) :=
  ⟨c4_string_to_record_type_spec.1 "mx" "MX" (by decide),
   c4_string_to_record_type_spec.2.2.2 "not_a_type" (by decide)⟩

/-- C5: for every driver whose `iterate_records` yields a finite sequence
of records for a zone, both `Zone.list_records` and the default
`DNSDriver.list_records` return exactly that sequence, in order. -/
theorem c5_list_records_drains_iterator :
    ∀ (d : DriverImpl) (z : Zone) (records : List Record),
      d.iterate_records z = Except.ok records →
      Zone.list_records d z = Except.ok records
      ∧ DriverImpl.list_records d z = Except.ok records := by
  intro d z records h
  unfold Zone.list_records DriverImpl.list_records
  rw [h]
  exact ⟨rfl, rfl⟩

/-- Witness for C5: the sample driver's iterator yields `[recordEx]`, and
both listing entry points return exactly that list. -/
theorem c5_list_records_drains_iterator_witness :
    exDriver.iterate_records zoneEx = Except.ok [recordEx]
    ∧ Zone.list_records exDriver zoneEx = Except.ok [recordEx]
    ∧ DriverImpl.list_records exDriver zoneEx = Except.ok [recordEx] :=
  ⟨rfl,
   (c5_list_records_drains_iterator exDriver zoneEx [recordEx] rfl).1,
   (c5_list_records_drains_iterator exDriver zoneEx [recordEx] rfl).2⟩

/-- C6: `Zone.create_record` with the empty name (zone apex) forwards the
call to the driver's record creation with `name` still the empty string and
`self` as the zone; on a driver that builds the Record from its arguments,
the created record carries `name = ""` (not None, not the domain). -/
theorem c6_create_record_apex_forwarded :
    (∀ (d : DriverImpl) (z : Zone) (ty : RecordType) (da : String)
       (ex : Option Extra),
       Zone.create_record d z "" ty da ex = d.create_record "" z ty da ex)
    ∧ (∀ (z : Zone) (ty : RecordType) (da : String),
       ∃ r : Record,
         Zone.create_record exDriver z "" ty da Option.none = Except.ok r
         ∧ r.name = "" ∧ r.zone = z) := by
  refine ⟨fun _ _ _ _ _ => rfl, ?_⟩
  intro z ty da
  exact ⟨Record.init PyVal.pyNone "" ty da z "ex" Option.none, rfl, rfl, rfl⟩

/-- C7: `Zone.update` delegates to the driver's zone-update with `self`
bound as the target zone; against the spec-modelled retention rule, fields
left unset keep their current value and the updated Zone is returned. -/
theorem c7_zone_update_delegates_retains :
    (∀ (d : DriverImpl) (z : Zone) (dom ty : Option String)
       (ttl : Option Int) (ex : Option Extra),
       Zone.update d z dom ty ttl ex = d.update_zone z dom ty ttl ex)
    ∧ (∀ z : Zone,
       Zone.update exDriver z Option.none Option.none Option.none Option.none
         = Except.ok z)
    ∧ (∀ (z : Zone) (dom : String),
       ∃ z2 : Zone,
         Zone.update exDriver z (Option.some dom) Option.none Option.none
             Option.none = Except.ok z2
         ∧ z2.domain = dom ∧ z2.id = z.id ∧ z2.type = z.type
         ∧ z2.ttl = z.ttl ∧ z2.driver = z.driver ∧ z2.extra = z.extra) := by
  refine ⟨fun _ _ _ _ _ _ => rfl, fun z => rfl, ?_⟩
  intro z dom
  exact ⟨⟨z.id, dom, z.type, z.ttl, z.driver, z.extra⟩,
    rfl, rfl, rfl, rfl, rfl, rfl, rfl⟩

/-- C8: no base method mutates the receiver: after any of the Zone methods
(list_records, create_record, update, delete) or Record methods (update,
delete) runs, the value of `self` equals the value before the call, for
every driver and every argument. -/
theorem c8_value_objects_not_mutated :
    (∀ (d : DriverImpl) (z : Zone), (Zone.list_records_call d z).1 = z)
    ∧ (∀ (d : DriverImpl) (z : Zone) (n : String) (ty : RecordType)
        (da : String) (ex : Option Extra),
        (Zone.create_record_call d z n ty da ex).1 = z)
    ∧ (∀ (d : DriverImpl) (z : Zone) (dom ty : Option String)
        (ttl : Option Int) (ex : Option Extra),
        (Zone.update_call d z dom ty ttl ex).1 = z)
    ∧ (∀ (d : DriverImpl) (z : Zone), (Zone.delete_call d z).1 = z)
    ∧ (∀ (d : DriverImpl) (r : Record) (n : Option String)
        (ty : Option RecordType) (da : Option String) (ex : Option Extra),
        (Record.update_call d r n ty da ex).1 = r)
    ∧ (∀ (d : DriverImpl) (r : Record), (Record.delete_call d r).1 = r) :=
  ⟨fun _ _ => rfl, fun _ _ _ _ _ _ => rfl, fun _ _ _ _ _ _ => rfl,
   fun _ _ => rfl, fun _ _ _ _ _ _ => rfl, fun _ _ => rfl⟩

/-- C9: `list_record_types` returns exactly the keys of the class-level
`RECORD_TYPE_MAP`; on the map `{A: "1", MX: "15"}` the result is a
collection equal to `{A, MX}`. -/
theorem c9_list_record_types_are_map_keys :
    (∀ m : List (RecordType × String),
       DNSDriver.list_record_types m = m.map Prod.fst)
    ∧ (∀ t : RecordType,
       t ∈ DNSDriver.list_record_types
           [(RecordType.A, "1"), (RecordType.MX, "15")]
         ↔ (t = RecordType.A ∨ t = RecordType.MX)) := by
  refine ⟨fun _ => rfl, ?_⟩
  intro t
  cases t <;> decide

/-- C10: a Zone or Record constructed with `extra` omitted/None has the
empty dict as its `extra` attribute, never None. -/
theorem c10_extra_defaults_to_empty_dict :
    (∀ (v : PyVal) (dom ty : String) (ttl : Option Int) (drv : String),
       (Zone.init v dom ty ttl drv Option.none).extra = [])
    ∧ (∀ (v : PyVal) (n : String) (ty : RecordType) (da : String) (z : Zone)
        (drv : String),
        (Record.init v n ty da z drv Option.none).extra = []) :=
  ⟨fun _ _ _ _ _ => rfl, fun _ _ _ _ _ _ => rfl⟩
